import Mathlib

/-!
Shallow embedding of `src/LiveConfig/manager.py` (the `LiveManager` registry of the
livevars repository) together with the parts of `liveconfig.typechecker` that the
manager calls.  `typechecker.py` is not among the sources, so `TypeChecker.handle_bool`,
`TypeChecker.handle_int`, `TypeChecker.handle_tuple` and `TypeChecker.handle_list` are
modelled from the specification; everything else is translated directly from the Python
source.

Python values are modelled as a closed variant (`PyValue`) covering the types the
manager's dispatch distinguishes (`bool`, `int`, `tuple`, `list`), plus strings (the
typical raw external input), plus `None` (the sentinel used by the accessors).
Python dicts are modelled as insertion-ordered association lists with Python's
update-in-place-or-append assignment semantics (`updateD`); `vars(obj)` is the
instance's own attribute dict, modelled as the `attrs` field of `PyInstance`.
Python exceptions are modelled with `Except`: a function that can raise returns
`Except PyErr _` (paired with the post-state for stateful operations).
-/

namespace LiveConfig

/-- Closed variant of the Python runtime values the manager manipulates. -/
inductive PyValue : Type
  | none
  | bool (b : Bool)
  | int (n : Int)
  | str (s : String)
  | tuple (elems : List PyValue)
  | list (elems : List PyValue)
deriving Repr

/-- Python type tags, the possible results of `type(...)` on a `PyValue`. -/
inductive PyType : Type
  | noneT
  | boolT
  | intT
  | strT
  | tupleT
  | listT
deriving Repr, DecidableEq

/-- The tag returned by Python's `type(v)` on a modelled value. -/
def pyTypeOf : PyValue → PyType
  | .none => .noneT
  | .bool _ => .boolT
  | .int _ => .intT
  | .str _ => .strT
  | .tuple _ => .tupleT
  | .list _ => .listT

/-- Python truthiness (`bool(v)`): `None`, `False`, `0`, empty string and empty
collections are falsy, everything else is truthy. -/
def pyTruthy : PyValue → Bool
  | .none => false
  | .bool b => b
  | .int n => decide (n ≠ 0)
  | .str s => decide (s ≠ "")
  | .tuple es => !es.isEmpty
  | .list es => !es.isEmpty

mutual

/-- Python's `repr` on modelled values (strings are quoted, as inside collections);
a singleton tuple prints with a trailing comma, as in Python. -/
def pyRepr : PyValue → String
  | .none => "None"
  | .bool b => if b then "True" else "False"
  | .int n => toString n
  | .str s => String.singleton (Char.ofNat 39) ++ s ++ String.singleton (Char.ofNat 39)
  | .tuple [] => "()"
  | .tuple [e] => "(" ++ pyRepr e ++ ",)"
  | .tuple es => "(" ++ String.intercalate ", " (pyReprList es) ++ ")"
  | .list es => "[" ++ String.intercalate ", " (pyReprList es) ++ "]"

/-- The element-wise `repr` of a list of values. -/
def pyReprList : List PyValue → List String
  | [] => []
  | v :: vs => pyRepr v :: pyReprList vs

end

/-- Python's `str(v)`: like `repr` except that strings print verbatim. -/
def pyStr : PyValue → String
  | .str s => s
  | v => pyRepr v

/-- The `attr is None` identity check used by the accessors (`manager.py` lines 84, 91, 93). -/
def isNone : PyValue → Bool
  | .none => true
  | _ => false

/-- Python dict read, `d.get(k)` / `d[k]`: the value at the first (and in a real dict,
only) occurrence of the key. -/
def lookupD {κ α : Type} [DecidableEq κ] : List (κ × α) → κ → Option α
  | [], _ => Option.none
  | (k₀, v₀) :: rest, k => if k₀ = k then some v₀ else lookupD rest k

/-- Python dict assignment, `d[k] = v`: replace the value at an existing key in place
(keeping its position), or append a new binding at the end. -/
def updateD {κ α : Type} [DecidableEq κ] : List (κ × α) → κ → α → List (κ × α)
  | [], k, v => [(k, v)]
  | (k₀, v₀) :: rest, k, v =>
      if k₀ = k then (k, v) :: rest else (k₀, v₀) :: updateD rest k v

/-- How many bindings a dict holds for a key (a well-formed dict has at most one). -/
def countKey {κ α : Type} [DecidableEq κ] (d : List (κ × α)) (k : κ) : Nat :=
  (d.filter (fun p => p.1 = k)).length

/-- A Python class object: its identity (two distinct class objects may share a
`__name__`) and its `__name__`. -/
structure PyClass where
  id : Nat
  name : String
deriving Repr, DecidableEq

/-- A tracked Python object: its instance attribute dict (`vars(obj)`, insertion
ordered) and the identity of its class (`type(obj)`). -/
structure PyInstance where
  attrs : List (String × PyValue)
  cls : Nat
deriving Repr

/-- The `loaded_values` dict of the file-handler collaborator: `Option.none` models a
dict without the `"live_instances"` key; the snapshot maps instance names to
attribute dicts. -/
structure LoadedValues where
  live_instances : Option (List (String × List (String × PyValue)))
deriving Repr

/-- The file-handler collaborator; `loaded_values` itself may be Python `None`. -/
structure FileHandler where
  loaded_values : Option LoadedValues
deriving Repr

/-- Python exceptions the modelled code can raise: `ValueError` (the duplicate-name
error of `register_instance`) and the coercion failure of the type checker. -/
inductive PyErr : Type
  | valueError (msg : String)
  | typeCoercionError
deriving Repr, DecidableEq

/-- The state of a `LiveManager` object.  `classInstances` models the mutable
`_instances` attribute that `register_instance` stores on class objects, keyed by
class identity: a key that is absent models `hasattr(cls, "_instances")` being false.
Aliasing between the instance table and the `_instances` lists is not modelled (the
lists hold copies); no claim observes it. -/
structure LiveManager where
  live_classes : List (String × PyClass)
  live_instances : List (String × PyInstance)
  file_handler : Option FileHandler
  classInstances : List (Nat × List PyInstance)
deriving Repr

/-- Python's `str.startswith`: the pattern's characters are a prefix of the string's. -/
def startsWithPy (s pre : String) : Bool :=
  pre.data.isPrefixOf s.data

/-- Strip leading and trailing whitespace from a character list (Python `str.strip`). -/
def trimChars (l : List Char) : List Char :=
  ((l.dropWhile Char.isWhitespace).reverse.dropWhile Char.isWhitespace).reverse

/-- Lower-case a string character-wise (Python `str.lower`). -/
def toLowerPy (s : String) : String :=
  ⟨s.data.map Char.toLower⟩

/-- Digits of a base-10 numeral to its value; fails on an empty or non-digit string. -/
def digitsToNat (l : List Char) : Option Nat :=
  if l.isEmpty then Option.none
  else if l.all Char.isDigit then
    some (l.foldl (fun a c => a * 10 + (c.toNat - 48)) 0)
  else Option.none

/-- Base-10 integer parsing as Python's `int(str)` does it: surrounding whitespace is
ignored, an optional sign precedes a non-empty digit run. -/
def parseIntPy (s : String) : Option Int :=
  match trimChars s.data with
  | '-' :: rest => (digitsToNat rest).map (fun n => -(n : Int))
  | '+' :: rest => (digitsToNat rest).map (fun n => (n : Int))
  | l => (digitsToNat l).map (fun n => (n : Int))

namespace TypeChecker

/-- Modelled from the spec: `coerceBool(raw)` accepts case-insensitive textual
truthy/falsy tokens ("true"/"false", "1"/"0", "yes"/"no"), is total on tokens (any
unrecognized token fails), and fails with `TypeCoercionError` on unrecognized input.
`liveconfig/typechecker.py` is not among the sources; only its call sites in
`manager.py` are. -/
def handle_bool (raw : PyValue) : Except PyErr PyValue :=
  match raw with
  | .bool b => .ok (.bool b)
  | .str s =>
      let t := toLowerPy s
      if t = "true" ∨ t = "1" ∨ t = "yes" then .ok (.bool true)
      else if t = "false" ∨ t = "0" ∨ t = "no" then .ok (.bool false)
      else .error .typeCoercionError
  | _ => .error .typeCoercionError

/-- Modelled from the spec: `coerceInt(raw)` parses a base-10 integer and fails with
`TypeCoercionError` on non-numeric input (an integer passes through unchanged). -/
def handle_int (raw : PyValue) : Except PyErr PyValue :=
  match raw with
  | .int n => .ok (.int n)
  | .str s =>
      match parseIntPy s with
      | some n => .ok (.int n)
      | Option.none => .error .typeCoercionError
  | _ => .error .typeCoercionError

/-- Strip one pair of surrounding round or square brackets from a trimmed string. -/
def stripBrackets (s : String) : String :=
  let t := trimChars s.data
  if (t.head? = some '(' ∧ t.getLast? = some ')') ∨
      (t.head? = some '[' ∧ t.getLast? = some ']') then
    ⟨(t.drop 1).dropLast⟩
  else ⟨t⟩

/-- Split a character list at every comma (Python `str.split(",")`). -/
def splitComma (l : List Char) (acc : List Char) : List (List Char) :=
  match l with
  | [] => [acc.reverse]
  | c :: rest =>
      if c = ',' then acc.reverse :: splitComma rest []
      else splitComma rest (c :: acc)

/-- Split a delimited textual collection representation into trimmed comma-separated
parts. -/
def splitParts (s : String) : List String :=
  (splitComma (stripBrackets s).data []).map (fun cs => String.mk (trimChars cs))

/-- Coerce one textual element to a scalar element type (used positionally by the
collection coercions). -/
def coerceElem (t : PyType) (s : String) : Option PyValue :=
  match t with
  | .boolT =>
      match handle_bool (.str s) with
      | .ok v => some v
      | .error _ => Option.none
  | .intT => (parseIntPy s).map PyValue.int
  | .strT => some (.str s)
  | _ => Option.none

/-- Modelled from the spec: `coerceTuple(raw, ownerInstance, attrName)` parses a
comma-separated, optionally bracketed textual representation into a fixed-length tuple
matching the current tuple's arity and per-position element types (inferred from the
existing value at `attrName`); returns null (with a warning) if arity or per-element
coercion fails. -/
def handle_tuple (raw : PyValue) (inst : PyInstance) (attr_name : String) :
    Option PyValue :=
  match raw, lookupD inst.attrs attr_name with
  | .str s, some (.tuple cur) =>
      let parts := splitParts s
      if parts.length = cur.length then
        ((cur.zip parts).mapM (fun p => coerceElem (pyTypeOf p.1) p.2)).map PyValue.tuple
      else Option.none
  | _, _ => Option.none

/-- Modelled from the spec: `coerceList(raw, ownerInstance, attrName)` parses a
delimited textual representation into a sequence, coercing each element to the element
type inferred from the first element of the current list value (failing when there is
no first element to infer from); returns null (with a warning) on element-coercion
failure; length is not constrained. -/
def handle_list (raw : PyValue) (inst : PyInstance) (attr_name : String) :
    Option PyValue :=
  match raw, lookupD inst.attrs attr_name with
  | .str s, some (.list cur) =>
      match cur with
      | [] => Option.none
      | c :: _ => ((splitParts s).mapM (coerceElem (pyTypeOf c))).map PyValue.list
  | _, _ => Option.none

end TypeChecker

/-- Python's type-constructor coercion `attr_type(value)` for each modelled type tag:
`Option.none` models the constructor raising (the exception the manager's `try` block
catches).  `bool()` is total (truthiness); `int()` accepts bools, ints and numeric
strings; `str()` is total; `tuple()`/`list()` accept strings (yielding the sequence of
one-character strings) and the two sequence types; `NoneType()` rejects an argument. -/
def pyConstruct (t : PyType) (v : PyValue) : Option PyValue :=
  match t with
  | .noneT => Option.none
  | .boolT => some (.bool (pyTruthy v))
  | .intT =>
      match v with
      | .bool b => some (.int (if b then 1 else 0))
      | .int n => some (.int n)
      | .str s => (parseIntPy s).map PyValue.int
      | _ => Option.none
  | .strT => some (.str (pyStr v))
  | .tupleT =>
      match v with
      | .str s => some (.tuple (s.toList.map (fun c => .str (String.singleton c))))
      | .tuple es => some (.tuple es)
      | .list es => some (.tuple es)
      | _ => Option.none
  | .listT =>
      match v with
      | .str s => some (.list (s.toList.map (fun c => .str (String.singleton c))))
      | .tuple es => some (.list es)
      | .list es => some (.list es)
      | _ => Option.none

namespace LiveManager

/-- `manager.py` lines 12-17, `register_class`: store the class under its `__name__`
(silently overwriting any previous entry) and return the class itself. -/
def register_class (m : LiveManager) (cls : PyClass) : PyClass × LiveManager :=
  (cls, { m with live_classes := updateD m.live_classes cls.name cls })

/-- `manager.py` lines 39-45, `load_values_into_instance`: `setattr` every saved
attribute onto the instance, unconditionally, and return the instance. -/
def load_values_into_instance (inst : PyInstance) (attrs : List (String × PyValue)) :
    PyInstance :=
  { inst with attrs := attrs.foldl (fun acc p => updateD acc p.1 p.2) inst.attrs }

/-- `manager.py` lines 19-37, `register_instance`: raise `ValueError` if the name is
already registered; otherwise apply a loaded snapshot for that name (when the file
handler, its `loaded_values` and the `"live_instances"` key all exist) before
inserting the instance into the table, then append the instance to its class's
`_instances` list (creating the list when the class object lacks the attribute).
The pair returned is the Python return/raise and the post-state. -/
def register_instance (m : LiveManager) (name : String) (inst : PyInstance) :
    Except PyErr Unit × LiveManager :=
  if (lookupD m.live_instances name).isSome then
    (.error (.valueError ("Instance with name " ++ name ++ " already exists.")), m)
  else
    let inst :=
      match m.file_handler with
      | some fh =>
          match fh.loaded_values with
          | some lv =>
              match lv.live_instances with
              | some snap =>
                  load_values_into_instance inst ((lookupD snap name).getD [])
              | Option.none => inst
          | Option.none => inst
      | Option.none => inst
    let m := { m with live_instances := updateD m.live_instances name inst }
    match lookupD m.classInstances inst.cls with
    | some l =>
        (.ok (), { m with classInstances := updateD m.classInstances inst.cls (l ++ [inst]) })
    | Option.none =>
        (.ok (), { m with classInstances := updateD m.classInstances inst.cls [inst] })

/-- `manager.py` lines 47-51, `get_live_classes`. -/
def get_live_classes (m : LiveManager) : List (String × PyClass) :=
  m.live_classes

/-- `manager.py` lines 53-57, `get_live_class_by_name`: `dict.get`, `None` on a miss. -/
def get_live_class_by_name (m : LiveManager) (class_name : String) : Option PyClass :=
  lookupD m.live_classes class_name

/-- `manager.py` lines 59-66, `get_live_instances`: resolve the class (class objects
are always truthy, so `if cls:` distinguishes exactly found/not found), then
`getattr(cls, "_instances", [])`; `None` when the class is unknown. -/
def get_live_instances (m : LiveManager) (class_name : String) :
    Option (List PyInstance) :=
  match get_live_class_by_name m class_name with
  | some cls => some ((lookupD m.classInstances cls.id).getD [])
  | Option.none => Option.none

/-- `manager.py` lines 68-76, `get_live_instance_by_name`: the instance, or `None`
plus a warning log on a miss. -/
def get_live_instance_by_name (m : LiveManager) (instance_name : String) :
    Option PyInstance :=
  lookupD m.live_instances instance_name

/-- `manager.py` lines 78-87, `get_live_instance_attr_by_name`: when the instance is
not `None`, `getattr(instance, attr_name, None)` (logging a warning when that is
`None`, but returning it either way); when the instance is `None`, the function falls
through and implicitly returns `None`.  An absent attribute and an attribute holding
`None` are therefore indistinguishable to the caller. -/
def get_live_instance_attr_by_name (inst : Option PyInstance) (attr_name : String) :
    PyValue :=
  match inst with
  | some i => (lookupD i.attrs attr_name).getD PyValue.none
  | Option.none => PyValue.none

/-- `manager.py` lines 109-114, the `try` block of `set_live_instance_attr_by_name`:
`value = attr_type(value); setattr(instance, attr_name, value)` with every exception
caught, logged and turned into a `None` return.  `setattr` rewrites the attribute in
the instance's dict and the (unchanged-name) instance is rewritten into the table. -/
def set_attr_try (m : LiveManager) (instance_name : String) (inst : PyInstance)
    (attr_name : String) (attr_type : PyType) (value : PyValue) :
    Except PyErr PyValue × LiveManager :=
  match pyConstruct attr_type value with
  | some v =>
      let inst2 : PyInstance := { inst with attrs := updateD inst.attrs attr_name v }
      (.ok PyValue.none,
        { m with live_instances := updateD m.live_instances instance_name inst2 })
  | Option.none => (.ok PyValue.none, m)

/-- `manager.py` lines 89-115, `set_live_instance_attr_by_name`: resolve the instance
(`None` return on a miss), read the current attribute (`None` return when it reads as
`None`), dispatch on the attribute's exact current type to the type checker (`bool`,
`int`, `tuple`, `list`; a `None` from the collection handlers returns `None`; an
exception from the scalar handlers is raised outside the `try` block and so
propagates), then run the guarded constructor coercion and `setattr`.  Every normal
return in the source is `None` (`setattr` itself evaluates to `None`). -/
def set_live_instance_attr_by_name (m : LiveManager) (instance_name attr_name : String)
    (value : PyValue) : Except PyErr PyValue × LiveManager :=
  match get_live_instance_by_name m instance_name with
  | Option.none => (.ok PyValue.none, m)
  | some inst =>
      let attr := get_live_instance_attr_by_name (some inst) attr_name
      if isNone attr then (.ok PyValue.none, m)
      else
        let attr_type := pyTypeOf attr
        if attr_type = PyType.boolT then
          match TypeChecker.handle_bool value with
          | .ok v => set_attr_try m instance_name inst attr_name attr_type v
          | .error e => (.error e, m)
        else if attr_type = PyType.intT then
          match TypeChecker.handle_int value with
          | .ok v => set_attr_try m instance_name inst attr_name attr_type v
          | .error e => (.error e, m)
        else if attr_type = PyType.tupleT then
          match TypeChecker.handle_tuple value inst attr_name with
          | some v => set_attr_try m instance_name inst attr_name attr_type v
          | Option.none => (.ok PyValue.none, m)
        else if attr_type = PyType.listT then
          match TypeChecker.handle_list value inst attr_name with
          | some v => set_attr_try m instance_name inst attr_name attr_type v
          | Option.none => (.ok PyValue.none, m)
        else set_attr_try m instance_name inst attr_name attr_type value

/-- Python dict assignment with a string key: strings are hashable, so the assignment
`clean_attrs[attr] = value` on `manager.py` line 135 always succeeds — it can raise
neither `TypeError` nor `ValueError`.  `Option.none` would model a raise of one of the
caught exception types; it never occurs. -/
def dictSetItem (d : List (String × PyValue)) (k : String) (v : PyValue) :
    Option (List (String × PyValue)) :=
  some (updateD d k v)

/-- `manager.py` lines 128-137, the per-instance body of `serialize_instances`: walk
`vars(live_instance)`, skip names starting with `"__"` or `"_tracked_attrs"`, and
store each remaining value via the guarded dict assignment, falling back to `str` of
the value if that assignment raised one of the caught exception types. -/
def clean_attrs (attributes : List (String × PyValue)) : List (String × PyValue) :=
  attributes.foldl
    (fun acc p =>
      if startsWithPy p.1 "__" || startsWithPy p.1 "_tracked_attrs" then acc
      else
        match dictSetItem acc p.1 p.2 with
        | some acc2 => acc2
        | Option.none => (dictSetItem acc p.1 (.str (pyStr p.2))).getD acc)
    []

/-- `manager.py` lines 120-140, `serialize_instances`: a dict with the single key
`"live_instances"` mapping each registered instance name, in registration order, to
its cleaned attribute dict. -/
def serialize_instances (m : LiveManager) :
    List (String × List (String × List (String × PyValue))) :=
  [("live_instances", m.live_instances.map (fun p => (p.1, clean_attrs p.2.attrs)))]

end LiveManager

/-- The attribute filter of `serialize_instances`: an attribute survives iff its name
starts with neither reserved internal prefix. -/
def keptAttr (p : String × PyValue) : Bool :=
  !(startsWithPy p.1 "__" || startsWithPy p.1 "_tracked_attrs")

/-! Concrete fixtures used by witnesses and counterexamples. -/

/-- A class object named `"C"`. -/
def clsC : PyClass := ⟨0, "C"⟩

/-- An instance with an int attribute, a string attribute and an internal
`_tracked_attrs` attribute. -/
def instX : PyInstance := ⟨[("a", .int 1), ("b", .str "hi"), ("_tracked_attrs", .int 9)], 0⟩

/-- A registry holding only `instX` under the name `"x"`. -/
def mEx : LiveManager := ⟨[], [("x", instX)], Option.none, []⟩

/-- An instance whose attribute `a` currently holds Python `None`. -/
def instN : PyInstance := ⟨[("a", PyValue.none)], 0⟩

/-- A registry holding only `instN` under the name `"x"`. -/
def mN : LiveManager := ⟨[], [("x", instN)], Option.none, []⟩

/-- A registry with class `"C"` registered and no instances. -/
def mC : LiveManager := ⟨[("C", clsC)], [], Option.none, []⟩

/-- A registry with a loaded snapshot `{"x": {"a": 42}}` and no instances. -/
def mSnap : LiveManager :=
  ⟨[], [], some ⟨some ⟨some [("x", [("a", .int 42)])]⟩⟩, []⟩

section DictLemmas

variable {κ α : Type} [DecidableEq κ]

theorem lookupD_updateD_self (d : List (κ × α)) (k : κ) (v : α) :
    lookupD (updateD d k v) k = some v := by
  induction d with
  | nil => simp [updateD, lookupD]
  | cons p rest ih =>
      rcases p with ⟨k₀, v₀⟩
      simp only [updateD]
      by_cases hp : k₀ = k
      · rw [if_pos hp]
        simp [lookupD]
      · rw [if_neg hp]
        simp only [lookupD, if_neg hp]
        exact ih

theorem lookupD_updateD_ne (d : List (κ × α)) (k k' : κ) (v : α) (h : k' ≠ k) :
    lookupD (updateD d k v) k' = lookupD d k' := by
  induction d with
  | nil =>
      simp only [updateD, lookupD]
      rw [if_neg (Ne.symm h)]
  | cons p rest ih =>
      rcases p with ⟨k₀, v₀⟩
      simp only [updateD]
      by_cases hp : k₀ = k
      · rw [if_pos hp]
        simp only [lookupD]
        rw [if_neg (Ne.symm h), if_neg (by rw [hp]; exact Ne.symm h)]
      · rw [if_neg hp]
        simp only [lookupD]
        by_cases hp' : k₀ = k'
        · rw [if_pos hp', if_pos hp']
        · rw [if_neg hp', if_neg hp']
          exact ih

theorem lookupD_eq_none_of_not_mem (d : List (κ × α)) (k : κ)
    (h : k ∉ d.map Prod.fst) : lookupD d k = Option.none := by
  induction d with
  | nil => simp [lookupD]
  | cons p rest ih =>
      rcases p with ⟨k₀, v₀⟩
      simp only [List.map_cons, List.mem_cons] at h
      push_neg at h
      simp only [lookupD]
      rw [if_neg (Ne.symm h.1)]
      exact ih h.2

theorem updateD_append_of_not_mem (d : List (κ × α)) (k : κ) (v : α)
    (h : k ∉ d.map Prod.fst) : updateD d k v = d ++ [(k, v)] := by
  induction d with
  | nil => simp [updateD]
  | cons p rest ih =>
      rcases p with ⟨k₀, v₀⟩
      simp only [List.map_cons, List.mem_cons] at h
      push_neg at h
      simp only [updateD]
      rw [if_neg (Ne.symm h.1), ih h.2]
      simp

theorem countKey_eq_zero_of_not_mem (d : List (κ × α)) (k : κ)
    (h : k ∉ d.map Prod.fst) : countKey d k = 0 := by
  induction d with
  | nil => simp [countKey]
  | cons p rest ih =>
      rcases p with ⟨k₀, v₀⟩
      simp only [List.map_cons, List.mem_cons] at h
      push_neg at h
      have h1 := ih h.2
      simp only [countKey, List.filter_cons] at h1 ⊢
      simp [Ne.symm h.1, h1]

theorem countKey_updateD_of_nodup (d : List (κ × α)) (k : κ) (v : α)
    (h : (d.map Prod.fst).Nodup) : countKey (updateD d k v) k = 1 := by
  induction d with
  | nil => simp [updateD, countKey, List.filter_cons]
  | cons p rest ih =>
      rcases p with ⟨k₀, v₀⟩
      simp only [List.map_cons, List.nodup_cons] at h
      by_cases hp : k₀ = k
      · subst hp
        have h0 : countKey rest k₀ = 0 := countKey_eq_zero_of_not_mem rest k₀ h.1
        simp only [updateD, if_pos rfl, countKey, List.filter_cons] at h0 ⊢
        simp [h0]
      · have h1 := ih h.2
        simp only [updateD, if_neg hp, countKey, List.filter_cons] at h1 ⊢
        simp [hp, h1]

theorem mem_keys_updateD (d : List (κ × α)) (k k' : κ) (v : α) :
    k' ∈ (updateD d k v).map Prod.fst ↔ k' ∈ d.map Prod.fst ∨ k' = k := by
  induction d with
  | nil => simp [updateD]
  | cons p rest ih =>
      rcases p with ⟨k₀, v₀⟩
      simp only [updateD]
      by_cases hp : k₀ = k
      · rw [if_pos hp]
        subst hp
        simp only [List.map_cons, List.mem_cons]
        tauto
      · rw [if_neg hp]
        simp only [List.map_cons, List.mem_cons, ih]
        tauto

theorem nodup_keys_updateD (d : List (κ × α)) (k : κ) (v : α)
    (h : (d.map Prod.fst).Nodup) : ((updateD d k v).map Prod.fst).Nodup := by
  induction d with
  | nil => simp [updateD]
  | cons p rest ih =>
      rcases p with ⟨k₀, v₀⟩
      simp only [List.map_cons, List.nodup_cons] at h
      simp only [updateD]
      by_cases hp : k₀ = k
      · rw [if_pos hp]
        subst hp
        simp only [List.map_cons, List.nodup_cons]
        exact h
      · rw [if_neg hp]
        simp only [List.map_cons, List.nodup_cons]
        refine ⟨?_, ih h.2⟩
        intro hmem
        rcases (mem_keys_updateD rest k k₀ v).mp hmem with h2 | h2
        · exact h.1 h2
        · exact hp h2

end DictLemmas

theorem lookupD_map_snd {α β : Type} (d : List (String × α)) (g : α → β) (k : String) :
    lookupD (d.map (fun p => (p.1, g p.2))) k = (lookupD d k).map g := by
  induction d with
  | nil => simp [lookupD]
  | cons p rest ih =>
      by_cases hp : p.1 = k
      · simp [lookupD, hp]
      · simp [lookupD, hp, ih]

theorem pyTypeOf_pyConstruct (t : PyType) (v w : PyValue)
    (h : pyConstruct t v = some w) : pyTypeOf w = t := by
  cases t <;> cases v <;>
    simp only [pyConstruct, Option.map_eq_map] at h <;>
    first
    | (cases h; rfl)
    | (rcases Option.map_eq_some'.mp h with ⟨n, -, rfl⟩; rfl)
    | exact absurd h (by simp)

theorem handle_bool_ok (raw v : PyValue)
    (h : TypeChecker.handle_bool raw = .ok v) : ∃ b, v = .bool b := by
  cases raw <;> simp only [TypeChecker.handle_bool] at h
  case bool b => exact ⟨b, by cases h; rfl⟩
  case str s =>
      by_cases h1 : toLowerPy s = "true" ∨ toLowerPy s = "1" ∨ toLowerPy s = "yes"
      · rw [if_pos h1] at h
        exact ⟨true, by cases h; rfl⟩
      · rw [if_neg h1] at h
        by_cases h2 : toLowerPy s = "false" ∨ toLowerPy s = "0" ∨ toLowerPy s = "no"
        · rw [if_pos h2] at h
          exact ⟨false, by cases h; rfl⟩
        · rw [if_neg h2] at h
          cases h
  all_goals cases h

theorem handle_int_ok (raw v : PyValue)
    (h : TypeChecker.handle_int raw = .ok v) : ∃ n, v = .int n := by
  cases raw <;> simp only [TypeChecker.handle_int] at h
  case int n => exact ⟨n, by cases h; rfl⟩
  case str s =>
      cases hp : parseIntPy s with
      | none => rw [hp] at h; cases h
      | some n => rw [hp] at h; exact ⟨n, by cases h; rfl⟩
  all_goals cases h


theorem clean_attrs_go (attrs acc : List (String × PyValue))
    (hnd : (attrs.map Prod.fst).Nodup)
    (hdisj : ∀ x ∈ attrs.map Prod.fst, x ∉ acc.map Prod.fst) :
    attrs.foldl
      (fun acc p =>
        if startsWithPy p.1 "__" || startsWithPy p.1 "_tracked_attrs" then acc
        else updateD acc p.1 p.2)
      acc
    = acc ++ attrs.filter keptAttr := by
  induction attrs generalizing acc with
  | nil => simp
  | cons p rest ih =>
      rcases p with ⟨k, v⟩
      simp only [List.map_cons, List.nodup_cons] at hnd
      simp only [List.foldl_cons]
      by_cases hint : (startsWithPy k "__" || startsWithPy k "_tracked_attrs") = true
      · rw [if_pos hint]
        rw [ih acc hnd.2 (fun x hx => hdisj x (by simp [hx]))]
        have : keptAttr (k, v) = false := by simp [keptAttr, hint]
        simp [List.filter_cons, this]
      · rw [if_neg hint]
        have hknotin : k ∉ acc.map Prod.fst := hdisj k (by simp)
        rw [updateD_append_of_not_mem acc k v hknotin]
        rw [ih (acc ++ [(k, v)]) hnd.2 ?_]
        · have : keptAttr (k, v) = true := by simp [keptAttr, hint]
          simp [List.filter_cons, this]
        · intro x hx
          simp only [List.map_append, List.map_cons, List.map_nil, List.mem_append,
            List.mem_singleton]
          rintro (hin | rfl)
          · exact hdisj x (by simp [hx]) hin
          · exact hnd.1 hx

theorem clean_attrs_eq_filter (attrs : List (String × PyValue))
    (hnd : (attrs.map Prod.fst).Nodup) :
    LiveManager.clean_attrs attrs = attrs.filter keptAttr := by
  have h := clean_attrs_go attrs [] hnd (by simp)
  simp only [List.nil_append] at h
  rw [← h]
  simp only [LiveManager.clean_attrs, LiveManager.dictSetItem]

theorem lookupD_foldl_updateD_not_mem (attrs d : List (String × PyValue)) (a : String)
    (h : a ∉ attrs.map Prod.fst) :
    lookupD (attrs.foldl (fun acc p => updateD acc p.1 p.2) d) a = lookupD d a := by
  induction attrs generalizing d with
  | nil => simp
  | cons p rest ih =>
      simp only [List.map_cons, List.mem_cons] at h
      push_neg at h
      simp only [List.foldl_cons]
      rw [ih (updateD d p.1 p.2) h.2]
      exact lookupD_updateD_ne d p.1 a p.2 h.1

theorem lookupD_foldl_updateD (attrs d : List (String × PyValue)) (a : String)
    (w : PyValue) (hnd : (attrs.map Prod.fst).Nodup) (h : lookupD attrs a = some w) :
    lookupD (attrs.foldl (fun acc p => updateD acc p.1 p.2) d) a = some w := by
  induction attrs generalizing d with
  | nil => simp [lookupD] at h
  | cons p rest ih =>
      simp only [List.map_cons, List.nodup_cons] at hnd
      simp only [List.foldl_cons]
      by_cases hp : p.1 = a
      · have hw : p.2 = w := by
          simp only [lookupD, if_pos hp] at h
          exact Option.some.inj h
        subst hp
        rw [lookupD_foldl_updateD_not_mem rest (updateD d p.1 p.2) p.1 hnd.1]
        rw [lookupD_updateD_self, hw]
      · exact ih (updateD d p.1 p.2) hnd.2 (by simpa only [lookupD, if_neg hp] using h)

/-- C1: for every registry state and every name already present in the instance table,
`register_instance` with that name raises the duplicate-name `ValueError` and returns
with the whole registry state (instance table, per-class `_instances` lists, class
table) exactly as before the call: no snapshot is loaded and no list is appended. -/
theorem register_instance_duplicate_raises_state_unchanged
    (m : LiveManager) (name : String) (inst : PyInstance)
    (h : (lookupD m.live_instances name).isSome = true) :
    LiveManager.register_instance m name inst =
      (.error (.valueError ("Instance with name " ++ name ++ " already exists.")), m) := by
  simp [LiveManager.register_instance, h]

/-- Witness for C1 at a concrete registry: `"x"` is taken in `mEx`, so a second
registration errors and the state is untouched. -/
theorem register_instance_duplicate_raises_state_unchanged_witness :
    (lookupD mEx.live_instances "x").isSome = true ∧
    LiveManager.register_instance mEx "x" ⟨[], 0⟩ =
      (.error (.valueError "Instance with name x already exists."), mEx) :=
  ⟨rfl, register_instance_duplicate_raises_state_unchanged mEx "x" ⟨[], 0⟩ rfl⟩

/-- C8: `register_class` returns the exact class object it was given and, from any
state whose class table has no duplicate keys, registering the same class twice leaves
exactly one entry under its name (re-registration silently overwrites). -/
theorem register_class_passthrough_and_idempotent (m : LiveManager) (cls : PyClass)
    (h : (m.live_classes.map Prod.fst).Nodup) :
    (LiveManager.register_class m cls).1 = cls ∧
    countKey
      (LiveManager.register_class (LiveManager.register_class m cls).2 cls).2.live_classes
      cls.name = 1 := by
  refine ⟨rfl, ?_⟩
  simp only [LiveManager.register_class]
  exact countKey_updateD_of_nodup _ cls.name cls (nodup_keys_updateD _ _ _ h)

/-- Witness for C8: double registration of `clsC` in the empty-table registry `mEx`
yields exactly one `"C"` entry, and the call returns `clsC` itself. -/
theorem register_class_passthrough_and_idempotent_witness :
    (LiveManager.register_class mEx clsC).1 = clsC ∧
    countKey
      (LiveManager.register_class (LiveManager.register_class mEx clsC).2 clsC).2.live_classes
      "C" = 1 :=
  register_class_passthrough_and_idempotent mEx clsC (by simp [mEx])

/-- C7: `get_live_instances` returns `None` when the class name is not in the class
table, and an empty list when the class is registered but its class object carries no
`_instances` attribute (no instance registered yet); the two outcomes are the distinct
`Option` values `none` and `some []`. -/
theorem get_live_instances_unknown_vs_empty (m : LiveManager) (class_name : String) :
    (lookupD m.live_classes class_name = Option.none →
      LiveManager.get_live_instances m class_name = Option.none) ∧
    (∀ cls, lookupD m.live_classes class_name = some cls →
      lookupD m.classInstances cls.id = Option.none →
      LiveManager.get_live_instances m class_name = some []) := by
  constructor
  · intro h
    simp [LiveManager.get_live_instances, LiveManager.get_live_class_by_name, h]
  · intro cls h1 h2
    simp [LiveManager.get_live_instances, LiveManager.get_live_class_by_name, h1, h2]

/-- Witness for C7: in `mC` (class `"C"` registered, no instances) the unknown class
`"D"` yields `none` while `"C"` yields `some []`. -/
theorem get_live_instances_unknown_vs_empty_witness :
    LiveManager.get_live_instances mC "D" = Option.none ∧
    LiveManager.get_live_instances mC "C" = some [] :=
  ⟨(get_live_instances_unknown_vs_empty mC "D").1 rfl,
   (get_live_instances_unknown_vs_empty mC "C").2 clsC rfl rfl⟩

/-- C9: an attribute that exists but currently holds `None` cannot be written:
`set_live_instance_attr_by_name` returns the failure sentinel (`None`) and leaves the
registry unchanged, because the accessor's `is None` check treats the attribute as
absent. -/
theorem set_attr_none_valued_attribute_unwritable (m : LiveManager) (i a : String)
    (inst : PyInstance) (raw : PyValue)
    (h1 : lookupD m.live_instances i = some inst)
    (h2 : lookupD inst.attrs a = some PyValue.none) :
    LiveManager.set_live_instance_attr_by_name m i a raw = (.ok PyValue.none, m) := by
  simp [LiveManager.set_live_instance_attr_by_name, LiveManager.get_live_instance_by_name,
    LiveManager.get_live_instance_attr_by_name, h1, h2, isNone]

/-- Witness for C9: in `mN`, attribute `"a"` of `"x"` holds `None`; writing `"1"` to
it returns `None` and changes nothing. -/
theorem set_attr_none_valued_attribute_unwritable_witness :
    LiveManager.set_live_instance_attr_by_name mN "x" "a" (.str "1") =
      (.ok PyValue.none, mN) :=
  set_attr_none_valued_attribute_unwritable mN "x" "a" instN (.str "1") rfl rfl

/-- C5: when a loaded snapshot exists for a fresh name being registered,
`register_instance` applies the snapshot's attribute mapping onto the instance before
inserting it (the table entry is exactly the loaded instance), and the load overwrites
each named attribute unconditionally with the snapshot value, with no type check. -/
theorem register_instance_applies_snapshot (m : LiveManager) (name : String)
    (inst : PyInstance) (fh : FileHandler) (lv : LoadedValues)
    (snap : List (String × List (String × PyValue))) (attrs : List (String × PyValue))
    (hfresh : lookupD m.live_instances name = Option.none)
    (hfh : m.file_handler = some fh)
    (hlv : fh.loaded_values = some lv)
    (hsnap : lv.live_instances = some snap)
    (hattrs : lookupD snap name = some attrs) :
    (LiveManager.register_instance m name inst).1 = .ok () ∧
    lookupD (LiveManager.register_instance m name inst).2.live_instances name =
      some (LiveManager.load_values_into_instance inst attrs) ∧
    ((attrs.map Prod.fst).Nodup → ∀ a w, lookupD attrs a = some w →
      lookupD (LiveManager.load_values_into_instance inst attrs).attrs a = some w) := by
  refine ⟨?_, ?_, ?_⟩
  · simp only [LiveManager.register_instance, hfresh, hfh, hlv, hsnap, hattrs,
      Option.isSome_none, Bool.false_eq_true, if_false, Option.getD_some]
    split <;> rfl
  · simp only [LiveManager.register_instance, hfresh, hfh, hlv, hsnap, hattrs,
      Option.isSome_none, Bool.false_eq_true, if_false, Option.getD_some]
    split <;> exact lookupD_updateD_self _ _ _
  · intro hnd a w hw
    exact lookupD_foldl_updateD attrs inst.attrs a w hnd hw

/-- Witness for C5, the spec's own example: registering `"x"` in `mSnap` (snapshot
`x.a = 42`) stores an instance whose `a` is `42`, overriding the constructor default
`1` carried by `instX`. -/
theorem register_instance_applies_snapshot_witness :
    (LiveManager.register_instance mSnap "x" instX).1 = .ok () ∧
    lookupD
      (((lookupD (LiveManager.register_instance mSnap "x" instX).2.live_instances
          "x").getD ⟨[], 0⟩).attrs) "a" = some (.int 42) := by
  have h := register_instance_applies_snapshot mSnap "x" instX
    ⟨some ⟨some [("x", [("a", .int 42)])]⟩⟩ ⟨some [("x", [("a", .int 42)])]⟩
    [("x", [("a", .int 42)])] [("a", .int 42)] rfl rfl rfl rfl rfl
  refine ⟨h.1, ?_⟩
  rw [h.2.1]
  exact h.2.2 (by simp) "a" (.int 42) rfl

theorem lookupD_filter_keptAttr (attrs : List (String × PyValue)) (a : String)
    (v : PyValue) (h : lookupD attrs a = some v)
    (hk : (startsWithPy a "__" || startsWithPy a "_tracked_attrs") = false) :
    lookupD (attrs.filter keptAttr) a = some v := by
  induction attrs with
  | nil => simp [lookupD] at h
  | cons p rest ih =>
      rcases p with ⟨k, w⟩
      by_cases hp : k = a
      · subst hp
        have hv : w = v := by
          simpa [lookupD] using h
        subst hv
        have : keptAttr (k, w) = true := by simp [keptAttr, hk]
        simp [List.filter_cons, this, lookupD]
      · have h2 : lookupD rest a = some v := by
          simpa only [lookupD, if_neg hp] using h
        by_cases hkeep : keptAttr (k, w) = true
        · simp [List.filter_cons, hkeep, lookupD, hp, ih h2]
        · simp only [Bool.not_eq_true] at hkeep
          simp [List.filter_cons, hkeep, ih h2]

/-- C6: `serialize_instances` returns a mapping whose single key is
`"live_instances"`, whose snapshot lists every registered instance name in
registration order, and whose per-instance dict contains an attribute name iff the
instance has it and it starts with neither `"__"` nor `"_tracked_attrs"`. -/
theorem serialize_instances_shape (m : LiveManager) :
    (LiveManager.serialize_instances m).map Prod.fst = ["live_instances"] ∧
    (∀ snap, lookupD (LiveManager.serialize_instances m) "live_instances" = some snap →
      snap.map Prod.fst = m.live_instances.map Prod.fst) ∧
    (∀ n inst, lookupD m.live_instances n = some inst →
      (inst.attrs.map Prod.fst).Nodup →
      ∃ d, lookupD
          ((lookupD (LiveManager.serialize_instances m) "live_instances").getD []) n =
            some d ∧
        ∀ a, a ∈ d.map Prod.fst ↔
          a ∈ inst.attrs.map Prod.fst ∧
            startsWithPy a "__" = false ∧ startsWithPy a "_tracked_attrs" = false) := by
  refine ⟨rfl, ?_, ?_⟩
  · intro snap hsnap
    have : snap = m.live_instances.map (fun p => (p.1, LiveManager.clean_attrs p.2.attrs)) := by
      simpa [LiveManager.serialize_instances, lookupD] using hsnap.symm
    subst this
    simp
  · intro n inst h hnd
    refine ⟨LiveManager.clean_attrs inst.attrs, ?_, ?_⟩
    · have hs : lookupD (LiveManager.serialize_instances m) "live_instances" =
          some (m.live_instances.map (fun p => (p.1, LiveManager.clean_attrs p.2.attrs))) := by
        simp [LiveManager.serialize_instances, lookupD]
      rw [hs, Option.getD_some]
      have := lookupD_map_snd m.live_instances
        (fun i => LiveManager.clean_attrs i.attrs) n
      rw [this, h]
      rfl
    · intro a
      rw [clean_attrs_eq_filter inst.attrs hnd]
      constructor
      · intro ha
        rcases List.mem_map.mp ha with ⟨p, hp, rfl⟩
        rcases List.mem_filter.mp hp with ⟨hmem, hkept⟩
        simp only [keptAttr, Bool.not_eq_eq_eq_not, Bool.not_true, Bool.or_eq_false_iff]
          at hkept
        exact ⟨List.mem_map.mpr ⟨p, hmem, rfl⟩, hkept.1, hkept.2⟩
      · rintro ⟨ha, h1, h2⟩
        rcases List.mem_map.mp ha with ⟨p, hp, rfl⟩
        refine List.mem_map.mpr ⟨p, List.mem_filter.mpr ⟨hp, ?_⟩, rfl⟩
        simp [keptAttr, h1, h2]

/-- Witness for C6, the spec's example: `mEx` (instance `"x"` with `a = 1`,
`b = "hi"`, internal `_tracked_attrs`) serializes to
`[{"live_instances": {"x": {"a": 1, "b": "hi"}}}]`, and `"b"` is a member while
`"_tracked_attrs"` is not. -/
theorem serialize_instances_shape_witness :
    (LiveManager.serialize_instances mEx).map Prod.fst = ["live_instances"] ∧
    (∃ d, lookupD
        ((lookupD (LiveManager.serialize_instances mEx) "live_instances").getD []) "x" =
          some d ∧
      ∀ a, a ∈ d.map Prod.fst ↔
        a ∈ instX.attrs.map Prod.fst ∧
          startsWithPy a "__" = false ∧ startsWithPy a "_tracked_attrs" = false) :=
  ⟨(serialize_instances_shape mEx).1,
   (serialize_instances_shape mEx).2.2 "x" instX rfl (by simp [instX])⟩

/-- C10: the textual-representation fallback of `serialize_instances` is unreachable:
the guarded dict assignment always succeeds (`dictSetItem` never returns the
raise-modelling `none`), so every included attribute is stored with its live value
identical and never replaced by its string representation. -/
theorem serialize_instances_values_identical (m : LiveManager) (n : String)
    (inst : PyInstance) (a : String) (v : PyValue)
    (h1 : lookupD m.live_instances n = some inst)
    (hnd : (inst.attrs.map Prod.fst).Nodup)
    (h2 : lookupD inst.attrs a = some v)
    (hk : (startsWithPy a "__" || startsWithPy a "_tracked_attrs") = false) :
    (∀ d k w, LiveManager.dictSetItem d k w = some (updateD d k w)) ∧
    lookupD
        ((lookupD (LiveManager.serialize_instances m) "live_instances").getD []) n =
      some (LiveManager.clean_attrs inst.attrs) ∧
    lookupD (LiveManager.clean_attrs inst.attrs) a = some v := by
  refine ⟨fun d k w => rfl, ?_, ?_⟩
  · have hs : lookupD (LiveManager.serialize_instances m) "live_instances" =
        some (m.live_instances.map (fun p => (p.1, LiveManager.clean_attrs p.2.attrs))) := by
      simp [LiveManager.serialize_instances, lookupD]
    rw [hs, Option.getD_some]
    rw [lookupD_map_snd m.live_instances (fun i => LiveManager.clean_attrs i.attrs) n, h1]
    rfl
  · rw [clean_attrs_eq_filter inst.attrs hnd]
    exact lookupD_filter_keptAttr inst.attrs a v h2 hk

/-- Witness for C10: in `mEx` the live value `b = "hi"` appears in the serialized
snapshot exactly as the live value, not as a string representation of it. -/
theorem serialize_instances_values_identical_witness :
    lookupD
        ((lookupD (LiveManager.serialize_instances mEx) "live_instances").getD []) "x" =
      some (LiveManager.clean_attrs instX.attrs) ∧
    lookupD (LiveManager.clean_attrs instX.attrs) "b" = some (.str "hi") :=
  ⟨(serialize_instances_values_identical mEx "x" instX "b" (.str "hi") rfl
      (by simp [instX]) rfl rfl).2.1,
   (serialize_instances_values_identical mEx "x" instX "b" (.str "hi") rfl
      (by simp [instX]) rfl rfl).2.2⟩

theorem set_attr_try_fst (m : LiveManager) (i : String) (inst : PyInstance)
    (a : String) (t : PyType) (val : PyValue) :
    (LiveManager.set_attr_try m i inst a t val).1 = .ok PyValue.none := by
  cases hc : pyConstruct t val <;> simp [LiveManager.set_attr_try, hc]

theorem set_attr_try_preserves (m : LiveManager) (i : String) (inst : PyInstance)
    (a : String) (t : PyType) (val : PyValue) (inst2 : PyInstance) (b : String)
    (w w2 : PyValue)
    (hl : lookupD m.live_instances i = some inst)
    (ht : t = pyTypeOf ((lookupD inst.attrs a).getD PyValue.none))
    (h2 : lookupD (LiveManager.set_attr_try m i inst a t val).2.live_instances i =
      some inst2)
    (h3 : lookupD inst.attrs b = some w)
    (h4 : lookupD inst2.attrs b = some w2) :
    pyTypeOf w2 = pyTypeOf w := by
  cases hc : pyConstruct t val with
  | none =>
      simp only [LiveManager.set_attr_try, hc] at h2
      rw [hl] at h2
      cases Option.some.inj h2
      rw [h3] at h4
      cases Option.some.inj h4
      rfl
  | some v2 =>
      simp only [LiveManager.set_attr_try, hc] at h2
      rw [lookupD_updateD_self] at h2
      cases Option.some.inj h2
      by_cases hba : b = a
      · subst hba
        rw [lookupD_updateD_self] at h4
        cases Option.some.inj h4
        rw [pyTypeOf_pyConstruct t val w2 hc, ht, h3, Option.getD_some]
      · rw [lookupD_updateD_ne inst.attrs a b v2 hba] at h4
        rw [h3] at h4
        cases Option.some.inj h4
        rfl

/-- C4: type preservation.  Whatever `set_live_instance_attr_by_name` does (succeed,
fail, or not touch the state), every attribute of the addressed instance that is
present before and after the call has the same runtime type after as before: a write
never changes an attribute's type. -/
theorem set_attr_preserves_attribute_types (m : LiveManager) (i a : String)
    (raw : PyValue) (inst inst2 : PyInstance) (b : String) (w w2 : PyValue)
    (h1 : lookupD m.live_instances i = some inst)
    (h2 : lookupD
      (LiveManager.set_live_instance_attr_by_name m i a raw).2.live_instances i =
      some inst2)
    (h3 : lookupD inst.attrs b = some w)
    (h4 : lookupD inst2.attrs b = some w2) :
    pyTypeOf w2 = pyTypeOf w := by
  have same_state : ∀ h2x : lookupD m.live_instances i = some inst2,
      pyTypeOf w2 = pyTypeOf w := by
    intro h2x
    rw [h1] at h2x
    cases Option.some.inj h2x
    rw [h3] at h4
    cases Option.some.inj h4
    rfl
  unfold LiveManager.set_live_instance_attr_by_name at h2
  rw [show LiveManager.get_live_instance_by_name m i = some inst from h1] at h2
  simp only [LiveManager.get_live_instance_attr_by_name] at h2
  by_cases hn : isNone ((lookupD inst.attrs a).getD PyValue.none) = true
  · rw [if_pos hn] at h2
    exact same_state h2
  · rw [if_neg hn] at h2
    by_cases hbt : pyTypeOf ((lookupD inst.attrs a).getD PyValue.none) = PyType.boolT
    · rw [if_pos hbt] at h2
      cases hh : TypeChecker.handle_bool raw with
      | error e =>
          rw [hh] at h2
          exact same_state h2
      | ok v =>
          rw [hh] at h2
          exact set_attr_try_preserves m i inst a _ v inst2 b w w2 h1 rfl h2 h3 h4
    · rw [if_neg hbt] at h2
      by_cases hit : pyTypeOf ((lookupD inst.attrs a).getD PyValue.none) = PyType.intT
      · rw [if_pos hit] at h2
        cases hh : TypeChecker.handle_int raw with
        | error e =>
            rw [hh] at h2
            exact same_state h2
        | ok v =>
            rw [hh] at h2
            exact set_attr_try_preserves m i inst a _ v inst2 b w w2 h1 rfl h2 h3 h4
      · rw [if_neg hit] at h2
        by_cases htt : pyTypeOf ((lookupD inst.attrs a).getD PyValue.none) = PyType.tupleT
        · rw [if_pos htt] at h2
          cases hh : TypeChecker.handle_tuple raw inst a with
          | none =>
              rw [hh] at h2
              exact same_state h2
          | some v =>
              rw [hh] at h2
              exact set_attr_try_preserves m i inst a _ v inst2 b w w2 h1 rfl h2 h3 h4
        · rw [if_neg htt] at h2
          by_cases hlt : pyTypeOf ((lookupD inst.attrs a).getD PyValue.none) = PyType.listT
          · rw [if_pos hlt] at h2
            cases hh : TypeChecker.handle_list raw inst a with
            | none =>
                rw [hh] at h2
                exact same_state h2
            | some v =>
                rw [hh] at h2
                exact set_attr_try_preserves m i inst a _ v inst2 b w w2 h1 rfl h2 h3 h4
          · rw [if_neg hlt] at h2
            exact set_attr_try_preserves m i inst a _ raw inst2 b w w2 h1 rfl h2 h3 h4

/-- Witness for C4 at a concrete input: after successfully writing `"2"` into the int
attribute `a` of `"x"` in `mEx`, the stored value's type is still `int`. -/
theorem set_attr_preserves_attribute_types_witness :
    pyTypeOf (.int 2) = pyTypeOf (.int 1) :=
  set_attr_preserves_attribute_types mEx "x" "a" (.str "2") instX
    ⟨[("a", .int 2), ("b", .str "hi"), ("_tracked_attrs", .int 9)], 0⟩ "a"
    (.int 1) (.int 2) rfl (by rfl) rfl rfl

/-- C2: for a registered instance whose attribute currently holds a `bool` or an
`int`, a `set_live_instance_attr_by_name` with a well-formed raw input followed by the
get-path (`get_live_instance_by_name` then `get_live_instance_attr_by_name`) returns
exactly the coerced value; with a malformed raw input the coercion failure propagates
(raised outside the `try` block), the registry is exactly as before and the prior
value is still readable.  The scalar coercions are modelled from the spec
(`typechecker.py` is not among the sources). -/
theorem set_then_get_bool_int (m : LiveManager) (i a : String) (raw : PyValue)
    (inst : PyInstance) (v : PyValue)
    (h1 : lookupD m.live_instances i = some inst)
    (h2 : lookupD inst.attrs a = some v) :
    (pyTypeOf v = PyType.boolT →
      (∀ w, TypeChecker.handle_bool raw = .ok w →
        LiveManager.get_live_instance_attr_by_name
          (LiveManager.get_live_instance_by_name
            (LiveManager.set_live_instance_attr_by_name m i a raw).2 i) a = w) ∧
      (∀ e, TypeChecker.handle_bool raw = .error e →
        LiveManager.set_live_instance_attr_by_name m i a raw = (.error e, m) ∧
        LiveManager.get_live_instance_attr_by_name
          (LiveManager.get_live_instance_by_name
            (LiveManager.set_live_instance_attr_by_name m i a raw).2 i) a = v)) ∧
    (pyTypeOf v = PyType.intT →
      (∀ w, TypeChecker.handle_int raw = .ok w →
        LiveManager.get_live_instance_attr_by_name
          (LiveManager.get_live_instance_by_name
            (LiveManager.set_live_instance_attr_by_name m i a raw).2 i) a = w) ∧
      (∀ e, TypeChecker.handle_int raw = .error e →
        LiveManager.set_live_instance_attr_by_name m i a raw = (.error e, m) ∧
        LiveManager.get_live_instance_attr_by_name
          (LiveManager.get_live_instance_by_name
            (LiveManager.set_live_instance_attr_by_name m i a raw).2 i) a = v)) := by
  constructor
  · intro hbt
    rcases v with _ | b0 | n0 | s0 | es | es <;> simp only [pyTypeOf] at hbt <;> try cases hbt
    constructor
    · intro w hw
      rcases handle_bool_ok raw w hw with ⟨b, rfl⟩
      have hset : (LiveManager.set_live_instance_attr_by_name m i a raw).2 =
          { m with live_instances := updateD m.live_instances i ({ inst with attrs := updateD inst.attrs a (.bool b) }) } := by
        simp [LiveManager.set_live_instance_attr_by_name,
          LiveManager.get_live_instance_by_name, LiveManager.get_live_instance_attr_by_name,
          h1, h2, isNone, pyTypeOf, hw, LiveManager.set_attr_try, pyConstruct, pyTruthy]
      rw [hset]
      simp [LiveManager.get_live_instance_by_name, LiveManager.get_live_instance_attr_by_name,
        lookupD_updateD_self]
    · intro e he
      have hset : LiveManager.set_live_instance_attr_by_name m i a raw = (.error e, m) := by
        simp [LiveManager.set_live_instance_attr_by_name,
          LiveManager.get_live_instance_by_name, LiveManager.get_live_instance_attr_by_name,
          h1, h2, isNone, pyTypeOf, he]
      refine ⟨hset, ?_⟩
      rw [hset]
      simp [LiveManager.get_live_instance_by_name, LiveManager.get_live_instance_attr_by_name,
        h1, h2]
  · intro hit
    rcases v with _ | b0 | n0 | s0 | es | es <;> simp only [pyTypeOf] at hit <;> try cases hit
    constructor
    · intro w hw
      rcases handle_int_ok raw w hw with ⟨n, rfl⟩
      have hset : (LiveManager.set_live_instance_attr_by_name m i a raw).2 =
          { m with live_instances := updateD m.live_instances i ({ inst with attrs := updateD inst.attrs a (.int n) }) } := by
        simp [LiveManager.set_live_instance_attr_by_name,
          LiveManager.get_live_instance_by_name, LiveManager.get_live_instance_attr_by_name,
          h1, h2, isNone, pyTypeOf, hw, LiveManager.set_attr_try, pyConstruct]
      rw [hset]
      simp [LiveManager.get_live_instance_by_name, LiveManager.get_live_instance_attr_by_name,
        lookupD_updateD_self]
    · intro e he
      have hset : LiveManager.set_live_instance_attr_by_name m i a raw = (.error e, m) := by
        simp [LiveManager.set_live_instance_attr_by_name,
          LiveManager.get_live_instance_by_name, LiveManager.get_live_instance_attr_by_name,
          h1, h2, isNone, pyTypeOf, he]
      refine ⟨hset, ?_⟩
      rw [hset]
      simp [LiveManager.get_live_instance_by_name, LiveManager.get_live_instance_attr_by_name,
        h1, h2]

/-- Witness for C2 on the int attribute `a` of `"x"` in `mEx`: writing `"2"` then
reading gives `2`; writing the malformed `"zz"` propagates the coercion error with the
state unchanged and `1` still readable. -/
theorem set_then_get_bool_int_witness :
    LiveManager.get_live_instance_attr_by_name
      (LiveManager.get_live_instance_by_name
        (LiveManager.set_live_instance_attr_by_name mEx "x" "a" (.str "2")).2 "x") "a" =
      .int 2 ∧
    LiveManager.set_live_instance_attr_by_name mEx "x" "a" (.str "zz") =
      (.error .typeCoercionError, mEx) ∧
    LiveManager.get_live_instance_attr_by_name
      (LiveManager.get_live_instance_by_name
        (LiveManager.set_live_instance_attr_by_name mEx "x" "a" (.str "zz")).2 "x") "a" =
      .int 1 :=
  ⟨(set_then_get_bool_int mEx "x" "a" (.str "2") instX (.int 1) rfl rfl).2 rfl
      |>.1 (.int 2) rfl,
   (set_then_get_bool_int mEx "x" "a" (.str "zz") instX (.int 1) rfl rfl).2 rfl
      |>.2 .typeCoercionError rfl |>.1,
   (set_then_get_bool_int mEx "x" "a" (.str "zz") instX (.int 1) rfl rfl).2 rfl
      |>.2 .typeCoercionError rfl |>.2⟩

/-- Counterexample to C3 as stated: in `mEx`, writing `"2"` into the int attribute
`a` of `"x"` succeeds (the post-state really holds `a = 2`), yet the call returns
`None` — the same falsy value returned when the instance does not exist — so the
return value alone cannot distinguish a successful write from a failed one, and no
truthy success value is ever returned. -/
theorem set_attr_return_value_counterexample :
    (LiveManager.set_live_instance_attr_by_name mEx "x" "a" (.str "2")).1 =
      .ok PyValue.none ∧
    lookupD (LiveManager.set_live_instance_attr_by_name mEx "x" "a"
        (.str "2")).2.live_instances "x" =
      some ⟨[("a", .int 2), ("b", .str "hi"), ("_tracked_attrs", .int 9)], 0⟩ ∧
    (LiveManager.set_live_instance_attr_by_name mEx "nope" "a" (.str "2")).1 =
      .ok PyValue.none ∧
    pyTruthy PyValue.none = false :=
  ⟨rfl, rfl, rfl, rfl⟩

/-- C3 as amended: every normal return of `set_live_instance_attr_by_name` — lookup
miss, absent attribute, caught coercion failure, and successful write alike — is the
Python `None` produced by `return None` or by `return setattr(...)`; when it does not
return it raises the propagated scalar-coercion error.  The return value is therefore
never a boolean success indicator and cannot distinguish success from failure. -/
theorem set_attr_always_returns_none (m : LiveManager) (i a : String)
    (raw : PyValue) :
    (∃ e, (LiveManager.set_live_instance_attr_by_name m i a raw).1 = .error e) ∨
    (LiveManager.set_live_instance_attr_by_name m i a raw).1 = .ok PyValue.none := by
  unfold LiveManager.set_live_instance_attr_by_name
  cases hl : LiveManager.get_live_instance_by_name m i with
  | none => right; rfl
  | some inst =>
      by_cases hn : isNone (LiveManager.get_live_instance_attr_by_name (some inst) a) = true
      · right
        simp [hn]
      · simp only [hn, Bool.false_eq_true, if_false]
        by_cases hbt : pyTypeOf (LiveManager.get_live_instance_attr_by_name (some inst) a) =
            PyType.boolT
        · rw [if_pos hbt]
          cases hh : TypeChecker.handle_bool raw with
          | error e => left; exact ⟨e, rfl⟩
          | ok v => right; exact set_attr_try_fst m i inst a _ v
        · rw [if_neg hbt]
          by_cases hit : pyTypeOf (LiveManager.get_live_instance_attr_by_name (some inst) a) =
              PyType.intT
          · rw [if_pos hit]
            cases hh : TypeChecker.handle_int raw with
            | error e => left; exact ⟨e, rfl⟩
            | ok v => right; exact set_attr_try_fst m i inst a _ v
          · rw [if_neg hit]
            by_cases htt : pyTypeOf (LiveManager.get_live_instance_attr_by_name (some inst) a) =
                PyType.tupleT
            · rw [if_pos htt]
              cases hh : TypeChecker.handle_tuple raw inst a with
              | none => right; rfl
              | some v => right; exact set_attr_try_fst m i inst a _ v
            · rw [if_neg htt]
              by_cases hlt : pyTypeOf (LiveManager.get_live_instance_attr_by_name (some inst) a) =
                  PyType.listT
              · rw [if_pos hlt]
                cases hh : TypeChecker.handle_list raw inst a with
                | none => right; rfl
                | some v => right; exact set_attr_try_fst m i inst a _ v
              · rw [if_neg hlt]
                right
                exact set_attr_try_fst m i inst a _ raw

end LiveConfig
